import Mathlib

/-!
Verification development for the `api-proxy` edge request router.

The definitions below are a shallow embedding of the repository's Rust
sources:
  * `src/handlers/soap_handler.rs` — SOAP envelope builder and response
    reduction (`process_soap_request`, `html_escape`);
  * `src/handlers/http_handler.rs` — HTTP pass-through translator and
    response reduction (`process_request`, `default_method`);
  * `src/auth.rs` — bearer-token validation (`validate_token`);
  * `src/lib.rs` — region classification and hash-based shard routing
    (`fetch`, `route_to_processor`);
  * `src/processors/processor_macro.rs` — SOAP/HTTP dispatch on the
    `X-Request-Type` header.

Strings are manipulated through their character lists so that every
definition evaluates inside the kernel.  Machine integers are modelled as
`Nat` with explicit reduction modulo `2 ^ 64` where Rust wraps.
-/

namespace ApiProxy

/-- Character-level lowercase map: the ASCII case table, which is how Rust's
`str::to_lowercase` acts on every string appearing in the router's
comparisons (all the compared literals — region codes and `"soap"` — are
ASCII, and no non-ASCII code point lowercases into them). -/
def lowerChar (c : Char) : Char :=
  if 65 ≤ c.toNat ∧ c.toNat ≤ 90 then Char.ofNat (c.toNat + 32) else c

/-- Embedding of Rust `str::to_lowercase` as used by the router. -/
def toLowercase (s : String) : String :=
  String.mk (s.toList.map lowerChar)

/-- Embedding of Rust `str::replace` with a `char` pattern: every occurrence
of `pat` is replaced by `rep`, scanning left to right. -/
def replaceChar (pat : Char) (rep : List Char) : List Char → List Char
  | [] => []
  | c :: rest =>
      if c = pat then rep ++ replaceChar pat rep rest
      else c :: replaceChar pat rep rest

/-- JSON values as `serde_json::Value` (numbers restricted to the integers,
which is all the router's SOAP translation distinguishes). -/
inductive Json where
  | null : Json
  | bool (b : Bool) : Json
  | num (n : Int) : Json
  | str (s : String) : Json
  | arr (xs : List Json) : Json
  | obj (fields : List (String × Json)) : Json

/-- Hex digit characters as used by `serde_json` (lowercase). -/
def hexDigit (n : Nat) : Char :=
  if n < 10 then Char.ofNat (48 + n) else Char.ofNat (87 + n)

/-- Escape of a single character inside a JSON string literal, following
`serde_json`'s compact writer. -/
def jsonEscapeChar (c : Char) : String :=
  if c = Char.ofNat 34 then "\\\""
  else if c = Char.ofNat 92 then "\\\\"
  else if c = Char.ofNat 8 then "\\b"
  else if c = Char.ofNat 9 then "\\t"
  else if c = Char.ofNat 10 then "\\n"
  else if c = Char.ofNat 12 then "\\f"
  else if c = Char.ofNat 13 then "\\r"
  else if c.toNat < 32 then
    "\\u00" ++ String.singleton (hexDigit (c.toNat / 16)) ++
      String.singleton (hexDigit (c.toNat % 16))
  else String.singleton c

/-- A JSON string literal: quotes around the escaped characters. -/
def jsonQuote (s : String) : String :=
  "\"" ++ String.join (s.toList.map jsonEscapeChar) ++ "\""

mutual

/-- Compact serialization of a JSON value, as `serde_json::Value::to_string`
(used by the SOAP builder's catch-all branch). -/
def jsonToString : Json → String
  | Json.null => "null"
  | Json.bool b => if b then "true" else "false"
  | Json.num n => toString n
  | Json.str s => jsonQuote s
  | Json.arr xs => "[" ++ jsonArrayBody xs ++ "]"
  | Json.obj fs => "\x7b" ++ jsonObjectBody fs ++ "\x7d"

/-- Comma-separated serialization of an array's elements. -/
def jsonArrayBody : List Json → String
  | [] => ""
  | [x] => jsonToString x
  | x :: y :: rest => jsonToString x ++ "," ++ jsonArrayBody (y :: rest)

/-- Comma-separated serialization of an object's fields, in order. -/
def jsonObjectBody : List (String × Json) → String
  | [] => ""
  | [(k, v)] => jsonQuote k ++ ":" ++ jsonToString v
  | (k, v) :: f :: rest =>
      jsonQuote k ++ ":" ++ jsonToString v ++ "," ++ jsonObjectBody (f :: rest)

end

/-- Unicode code-point ranges with General_Category `Nd`, `Nl` or `No`, the
classes accepted by Rust's `char::is_numeric`; the table lists the Basic
Multilingual Plane numeric blocks. -/
def numericRanges : List (Nat × Nat) :=
  [(0x30, 0x39), (0xB2, 0xB3), (0xB9, 0xB9), (0xBC, 0xBE),
   (0x660, 0x669), (0x6F0, 0x6F9), (0x7C0, 0x7C9),
   (0x966, 0x96F), (0x9E6, 0x9EF), (0x9F4, 0x9F9),
   (0xA66, 0xA6F), (0xAE6, 0xAEF), (0xB66, 0xB6F), (0xBE6, 0xBF2),
   (0xC66, 0xC6F), (0xCE6, 0xCEF), (0xD66, 0xD6F), (0xDE6, 0xDEF),
   (0xE50, 0xE59), (0xED0, 0xED9), (0xF20, 0xF33),
   (0x1040, 0x1049), (0x1090, 0x1099), (0x1369, 0x137C),
   (0x16EE, 0x16F0), (0x17E0, 0x17E9), (0x1810, 0x1819),
   (0x1946, 0x194F), (0x19D0, 0x19DA), (0x1A80, 0x1A89), (0x1A90, 0x1A99),
   (0x1B50, 0x1B59), (0x1BB0, 0x1BB9), (0x1C40, 0x1C49), (0x1C50, 0x1C59),
   (0x2070, 0x2070), (0x2074, 0x2079), (0x2080, 0x2089),
   (0x2150, 0x2182), (0x2185, 0x2189),
   (0x2460, 0x249B), (0x24EA, 0x24FF), (0x2776, 0x2793),
   (0x3007, 0x3007), (0x3021, 0x3029), (0x3038, 0x303A),
   (0xA620, 0xA629), (0xA6E6, 0xA6EF), (0xA8D0, 0xA8D9),
   (0xA900, 0xA909), (0xA9D0, 0xA9D9), (0xA9F0, 0xA9F9),
   (0xAA50, 0xAA59), (0xABF0, 0xABF9), (0xFF10, 0xFF19)]

/-- Embedding of Rust `char::is_numeric` (true on General_Category
`Nd`/`Nl`/`No`), which the SOAP builder applies to every character of a
parameter key. -/
def rustIsNumeric (c : Char) : Bool :=
  numericRanges.any (fun r => decide (r.1 ≤ c.toNat ∧ c.toNat ≤ r.2))

/-- Embedding of `html_escape` from `soap_handler.rs`: sequential
`str::replace` of the ampersand, angle-bracket, double-quote and
single-quote characters by their HTML entities. -/
def html_escape (s : String) : String :=
  String.mk
    (replaceChar (Char.ofNat 39) "&apos;".toList
      (replaceChar (Char.ofNat 34) "&quot;".toList
        (replaceChar (Char.ofNat 62) "&gt;".toList
          (replaceChar (Char.ofNat 60) "&lt;".toList
            (replaceChar (Char.ofNat 38) "&amp;".toList s.toList)))))

/-- The emitted XML tag for a SOAP parameter key (`soap_handler.rs` lines
104–108): a key all of whose characters are numeric becomes
`__numeric_<key>`, any other key is kept as is. -/
def xmlKey (key : String) : String :=
  if key.toList.all rustIsNumeric then "__numeric_" ++ key else key

/-- The `(type_hint, value_str)` pair for a SOAP parameter value
(`soap_handler.rs` lines 110–116). -/
def soapTypedValue : Json → String × String
  | Json.bool b => ("xsd:boolean", if b then "true" else "false")
  | Json.num n => ("xsd:int", toString n)
  | Json.str s => ("xsd:string", html_escape s)
  | Json.null => ("xsd:string", "")
  | v => ("xsd:string", jsonToString v)

/-- One emitted parameter element, `<KEY xsi:type="TYPE">VALUE</KEY>`. -/
def emitParam (p : String × Json) : String :=
  "<" ++ xmlKey p.1 ++ " xsi:type=\"" ++ (soapTypedValue p.2).1 ++ "\">" ++
    (soapTypedValue p.2).2 ++ "</" ++ xmlKey p.1 ++ ">"

/-- The parameter section of the SOAP body: the source's `for` loop pushing
each element onto a mutable string, i.e. a left fold of appends. -/
def soapParamsContent (params : List (String × Json)) : String :=
  params.foldl (fun acc p => acc ++ emitParam p) ""

/-- The SOAP body content (`soap_handler.rs` lines 94–124): the
`ns1766:`-prefixed action element wrapping the parameters. -/
def soapBodyContent (action ns : String) (params : List (String × Json)) : String :=
  "<ns1766:" ++ action ++ " xmlns:ns1766=\"" ++ ns ++ "\">" ++
    soapParamsContent params ++ "</ns1766:" ++ action ++ ">"

/-- The complete SOAP envelope (`soap_handler.rs` lines 128–131): XML
declaration and fixed namespace boilerplate around the body, on one line. -/
def soapEnvelope (action ns : String) (params : List (String × Json)) : String :=
  "<?xml version=\"1.0\" encoding=\"ISO-8859-1\"?><SOAP-ENV:Envelope SOAP-ENV:encodingStyle=\"http://schemas.xmlsoap.org/soap/encoding/\" xmlns:SOAP-ENV=\"http://schemas.xmlsoap.org/soap/envelope/\" xmlns:xsd=\"http://www.w3.org/2001/XMLSchema\" xmlns:xsi=\"http://www.w3.org/2001/XMLSchema-instance\" xmlns:SOAP-ENC=\"http://schemas.xmlsoap.org/soap/encoding/\"><SOAP-ENV:Body>" ++
    soapBodyContent action ns params ++ "</SOAP-ENV:Body></SOAP-ENV:Envelope>"


/-! ## Shard routing (`src/lib.rs`, `route_to_processor`)

The router hashes the request body with `std::collections::hash_map::DefaultHasher::new()`,
which is SipHash-1-3 with both keys fixed to `0`, and takes the result
modulo 10.  The 64-bit state is modelled as `Nat` reduced modulo `2 ^ 64`.
-/

/-- Wrapping 64-bit addition (`u64::wrapping_add`). -/
def add64 (a b : Nat) : Nat := (a + b) % 2 ^ 64

/-- Left rotation (`u64::rotate_left`) of a 64-bit value below `2 ^ 64`. -/
def rotl64 (x r : Nat) : Nat := ((x <<< r) % 2 ^ 64) ||| (x >>> (64 - r))

/-- The four 64-bit words of the SipHash internal state. -/
structure SipState where
  v0 : Nat
  v1 : Nat
  v2 : Nat
  v3 : Nat

/-- One SipHash round (`SipHasher13`'s compression round). -/
def sipRound (s : SipState) : SipState :=
  let v0 := add64 s.v0 s.v1
  let v1 := rotl64 s.v1 13
  let v1 := v1 ^^^ v0
  let v0 := rotl64 v0 32
  let v2 := add64 s.v2 s.v3
  let v3 := rotl64 s.v3 16
  let v3 := v3 ^^^ v2
  let v0 := add64 v0 v3
  let v3 := rotl64 v3 21
  let v3 := v3 ^^^ v0
  let v2 := add64 v2 v1
  let v1 := rotl64 v1 17
  let v1 := v1 ^^^ v2
  let v2 := rotl64 v2 32
  ⟨v0, v1, v2, v3⟩

/-- Absorb one 64-bit message word: `v3 ^= m`, one round, `v0 ^= m`
(SipHash-1-3 performs a single compression round per word). -/
def sipCompress (s : SipState) (m : Nat) : SipState :=
  let s1 := sipRound { s with v3 := s.v3 ^^^ m }
  { s1 with v0 := s1.v0 ^^^ m }

/-- Initial state of `DefaultHasher::new()`: the SipHash constants xored
with the fixed keys `k0 = k1 = 0`, hence the bare constants.  The keys are
compile-time constants, not per-process random values, so every hasher
instance starts from this same state. -/
def sipInit : SipState :=
  ⟨0x736f6d6570736575, 0x646f72616e646f6d, 0x6c7967656e657261, 0x7465646279746573⟩

/-- A little-endian 64-bit word from up to eight bytes (head is the least
significant byte). -/
def leWord (bs : List Nat) : Nat :=
  bs.foldr (fun b acc => (b % 256) + 256 * acc) 0

/-- Absorb the full 8-byte words of the message, returning the resulting
state and the remaining tail of fewer than eight bytes. -/
def sipWords (s : SipState) : List Nat → SipState × List Nat
  | b0 :: b1 :: b2 :: b3 :: b4 :: b5 :: b6 :: b7 :: rest =>
      sipWords (sipCompress s (leWord [b0, b1, b2, b3, b4, b5, b6, b7])) rest
  | tail => (s, tail)

/-- SipHash finalization (`Hasher::finish`): absorb the length-and-tail
word, xor `0xff` into `v2`, run three rounds, xor the state together. -/
def sipFinish (s : SipState) (len : Nat) (tail : List Nat) : Nat :=
  let b := ((len % 256) <<< 56) ||| leWord tail
  let s1 := sipCompress s b
  let s2 := { s1 with v2 := s1.v2 ^^^ 0xff }
  let s3 := sipRound (sipRound (sipRound s2))
  s3.v0 ^^^ s3.v1 ^^^ s3.v2 ^^^ s3.v3

/-- The value of `DefaultHasher::new()` after `body.hash(&mut hasher)` and
`hasher.finish()`: Rust's `str` hashing feeds the UTF-8 bytes followed by a
single `0xff` terminator byte into SipHash-1-3. -/
def defaultHasherOfBytes (bodyBytes : List Nat) : Nat :=
  let msg := bodyBytes ++ [0xff]
  let r := sipWords sipInit msg
  sipFinish r.1 msg.length r.2

/-- The shard index chosen by `route_to_processor`:
`hasher.finish() % 10`, computed from the body bytes alone. -/
def route_do_index (bodyBytes : List Nat) : Nat :=
  defaultHasherOfBytes bodyBytes % 10

/-! ## Region classification (`src/lib.rs`, `fetch` / `route_to_processor`) -/

/-- The eight symbolic regions of `lib.rs`. -/
inductive ProcessorRegion where
  | WesternNorthAmerica : ProcessorRegion
  | EasternNorthAmerica : ProcessorRegion
  | WesternEurope : ProcessorRegion
  | EasternEurope : ProcessorRegion
  | AsiaPacific : ProcessorRegion
  | Oceania : ProcessorRegion
  | Africa : ProcessorRegion
  | MiddleEast : ProcessorRegion
deriving DecidableEq

/-- The `match region_header.to_lowercase().as_str()` of `fetch`
(`lib.rs` lines 72–85): eight known codes, anything else falls through to
Western North America. -/
def regionFromHeader (h : String) : ProcessorRegion :=
  if toLowercase h = "wnam" then ProcessorRegion.WesternNorthAmerica
  else if toLowercase h = "enam" then ProcessorRegion.EasternNorthAmerica
  else if toLowercase h = "weur" then ProcessorRegion.WesternEurope
  else if toLowercase h = "eeur" then ProcessorRegion.EasternEurope
  else if toLowercase h = "apac" then ProcessorRegion.AsiaPacific
  else if toLowercase h = "oc" then ProcessorRegion.Oceania
  else if toLowercase h = "af" then ProcessorRegion.Africa
  else if toLowercase h = "me" then ProcessorRegion.MiddleEast
  else ProcessorRegion.WesternNorthAmerica

/-- Region derived from the optional `X-CF-Region` header: an absent header
defaults to the string `"wnam"` before the match (`lib.rs` lines 55–58). -/
def regionOfHeader (h : Option String) : ProcessorRegion :=
  regionFromHeader (h.getD "wnam")

/-- The per-region routing data of `route_to_processor` (`lib.rs` lines
113–122): Durable Object namespace, region code, location hint, EU flag. -/
structure RegionTarget where
  namespaceName : String
  regionCode : String
  locationHint : String
  isEU : Bool
deriving DecidableEq

/-- The fixed 8-entry region table of `route_to_processor`. -/
def regionInfo : ProcessorRegion → RegionTarget
  | ProcessorRegion.WesternNorthAmerica => ⟨"WNAM_PROCESSOR", "wnam", "wnam", false⟩
  | ProcessorRegion.EasternNorthAmerica => ⟨"ENAM_PROCESSOR", "enam", "enam", false⟩
  | ProcessorRegion.WesternEurope => ⟨"WEUR_PROCESSOR", "weur", "weur", true⟩
  | ProcessorRegion.EasternEurope => ⟨"EEUR_PROCESSOR", "eeur", "eeur", true⟩
  | ProcessorRegion.AsiaPacific => ⟨"APAC_PROCESSOR", "apac", "apac", false⟩
  | ProcessorRegion.Oceania => ⟨"OC_PROCESSOR", "oc", "oc", false⟩
  | ProcessorRegion.Africa => ⟨"AF_PROCESSOR", "af", "af", false⟩
  | ProcessorRegion.MiddleEast => ⟨"ME_PROCESSOR", "me", "me", false⟩

/-- The Durable Object instance name `"<regionCode>-processor-<doIndex>"`
built by `route_to_processor`. -/
def doName (r : ProcessorRegion) (bodyBytes : List Nat) : String :=
  (regionInfo r).regionCode ++ "-processor-" ++ toString (route_do_index bodyBytes)

/-! ## Authentication (`src/auth.rs`) -/

/-- A minimal view of a `worker::Response`: status code and body text. -/
structure WorkerResponse where
  status : Nat
  body : String
deriving DecidableEq

/-- The uniform 403 response built by `AuthError::forbidden`. -/
def forbiddenResponse : WorkerResponse :=
  ⟨403, "Forbidden: Invalid or missing authentication token"⟩

/-- Embedding of `validate_token` (`auth.rs` lines 18–48): require the
`Authorization` header, require the `"Bearer "` scheme, and compare the
remainder (`strip_prefix`, i.e. dropping the seven scheme characters)
against the configured secret. -/
def validate_token (authHeader : Option String) (expectedToken : String) :
    Except String Unit :=
  match authHeader with
  | none => Except.error "Missing Authorization header"
  | some h =>
      if ("Bearer ".toList).isPrefixOf h.toList then
        let token := String.mk (h.toList.drop 7)
        if token = expectedToken then Except.ok ()
        else Except.error "Invalid token"
      else Except.error "Invalid Authorization header format"

/-- The `fetch` entry point's auth step (`lib.rs` lines 32–35): any
validation error is replaced by the one fixed 403 response and the pipeline
stops; success produces no response and processing continues. -/
def authGateResponse (authHeader : Option String) (secret : String) :
    Option WorkerResponse :=
  match validate_token authHeader secret with
  | Except.error _ => some forbiddenResponse
  | Except.ok _ => none

/-- Boolean success view of `validate_token`. -/
def authOk (authHeader : Option String) (secret : String) : Bool :=
  match validate_token authHeader secret with
  | Except.ok _ => true
  | Except.error _ => false

/-! ## Response reduction (`http_handler.rs` lines 178–214 and
`soap_handler.rs` lines 161–195 — the two handlers share this tail) -/

/-- The canonical reason phrases of `http::StatusCode::canonical_reason`,
the library call both handlers use for the error message. -/
def canonicalReason (status : Nat) : Option String :=
  match status with
  | 100 => some "Continue"
  | 101 => some "Switching Protocols"
  | 102 => some "Processing"
  | 200 => some "OK"
  | 201 => some "Created"
  | 202 => some "Accepted"
  | 203 => some "Non Authoritative Information"
  | 204 => some "No Content"
  | 205 => some "Reset Content"
  | 206 => some "Partial Content"
  | 207 => some "Multi-Status"
  | 208 => some "Already Reported"
  | 226 => some "IM Used"
  | 300 => some "Multiple Choices"
  | 301 => some "Moved Permanently"
  | 302 => some "Found"
  | 303 => some "See Other"
  | 304 => some "Not Modified"
  | 305 => some "Use Proxy"
  | 307 => some "Temporary Redirect"
  | 308 => some "Permanent Redirect"
  | 400 => some "Bad Request"
  | 401 => some "Unauthorized"
  | 402 => some "Payment Required"
  | 403 => some "Forbidden"
  | 404 => some "Not Found"
  | 405 => some "Method Not Allowed"
  | 406 => some "Not Acceptable"
  | 407 => some "Proxy Authentication Required"
  | 408 => some "Request Timeout"
  | 409 => some "Conflict"
  | 410 => some "Gone"
  | 411 => some "Length Required"
  | 412 => some "Precondition Failed"
  | 413 => some "Payload Too Large"
  | 414 => some "URI Too Long"
  | 415 => some "Unsupported Media Type"
  | 416 => some "Range Not Satisfiable"
  | 417 => some "Expectation Failed"
  | 418 => some "I\x27m a teapot"
  | 421 => some "Misdirected Request"
  | 422 => some "Unprocessable Entity"
  | 423 => some "Locked"
  | 424 => some "Failed Dependency"
  | 426 => some "Upgrade Required"
  | 428 => some "Precondition Required"
  | 429 => some "Too Many Requests"
  | 431 => some "Request Header Fields Too Large"
  | 451 => some "Unavailable For Legal Reasons"
  | 500 => some "Internal Server Error"
  | 501 => some "Not Implemented"
  | 502 => some "Bad Gateway"
  | 503 => some "Service Unavailable"
  | 504 => some "Gateway Timeout"
  | 505 => some "HTTP Version Not Supported"
  | 506 => some "Variant Also Negotiates"
  | 507 => some "Insufficient Storage"
  | 508 => some "Loop Detected"
  | 510 => some "Not Extended"
  | 511 => some "Network Authentication Required"
  | _ => none

/-- The normalized outcome returned by both handlers (untagged
`Success`/`Error` union). -/
inductive ApiResponse where
  | success (status : Nat) (headers : List (String × String)) (body : Json) : ApiResponse
  | error (status : Nat) (message : String) : ApiResponse

/-- Map insertion with last-write-wins semantics, modelling
`HashMap::insert` on an association list. -/
def insertHeader (m : List (String × String)) (k v : String) :
    List (String × String) :=
  (k, v) :: m.filter (fun kv => kv.1 != k)

/-- One iteration of the handlers' response-header loop: a header whose
value converts with `HeaderValue::to_str` (modelled as `some`) is inserted
under its name unchanged; a header whose value does not convert is
skipped (`if let Ok(v) = value.to_str()`). -/
def headerStep (m : List (String × String)) (kv : String × Option String) :
    List (String × String) :=
  match kv.2 with
  | some v => insertHeader m kv.1 v
  | none => m

/-- The handlers' response-header loop over all upstream headers. -/
def collectHeaders (hs : List (String × Option String)) :
    List (String × String) :=
  hs.foldl headerStep []

/-- Key lookup in the collected header map. -/
def containsKey (m : List (String × String)) (k : String) : Bool :=
  m.any (fun kv => kv.1 == k)

/-- The shared response-reduction tail of both handlers, parameterized over
the JSON parser (`serde_json::from_str`, an external library function):
a 200–299 status yields `Success` with the collected headers and the body
parsed as JSON when the parser succeeds (else the raw text as a JSON
string); any other status yields `Error` with the canonical reason phrase,
`"Unknown Status"` when there is none, and the body and headers are
discarded. -/
def reduceResponse (parse : String → Option Json) (status : Nat)
    (respHeaders : List (String × Option String)) (text : String) :
    ApiResponse :=
  if 200 ≤ status ∧ status < 300 then
    ApiResponse.success status (collectHeaders respHeaders)
      (match parse text with
       | some v => v
       | none => Json.str text)
  else ApiResponse.error status ((canonicalReason status).getD "Unknown Status")

/-! ## HTTP pass-through translation (`src/handlers/http_handler.rs`) -/

/-- The seven HTTP methods of `http_handler.rs`. -/
inductive HttpMethod where
  | get : HttpMethod
  | post : HttpMethod
  | put : HttpMethod
  | delete : HttpMethod
  | patch : HttpMethod
  | head : HttpMethod
  | options : HttpMethod
deriving DecidableEq

/-- The serde default for a missing `method` field (`default_method`,
`http_handler.rs` lines 83–85). -/
def default_method : HttpMethod := HttpMethod.post

/-- The method actually used for a request whose `method` field may be
absent. -/
def methodOfSpec (m : Option HttpMethod) : HttpMethod :=
  m.getD default_method

/-- The outbound request shape that matters for parameter placement:
either the params ride in the query string or as the JSON body. -/
structure OutboundRequest where
  method : HttpMethod
  url : String
  queryParams : Option (List (String × String))
  bodyParams : Option (List (String × String))
deriving DecidableEq

/-- Parameter placement from `process_request` (`http_handler.rs` lines
141–160): `matches!(method, Get | Head | Delete)` sends the params as the
query string, every other method sends them as a JSON object body. -/
def buildOutbound (m : HttpMethod) (url : String)
    (params : List (String × String)) : OutboundRequest :=
  if m = HttpMethod.get ∨ m = HttpMethod.head ∨ m = HttpMethod.delete then
    ⟨m, url, some params, none⟩
  else
    ⟨m, url, none, some params⟩

/-! ## SOAP/HTTP dispatch (`processor_macro.rs` lines 41–45) and header
forwarding (`lib.rs` lines 147–152) -/

/-- The `X-Request-Type` value seen by the processor: an absent header
defaults to the empty string (`unwrap_or_default`). -/
def requestTypeOfHeader (h : Option String) : String :=
  h.getD ""

/-- The processor's dispatch test: `request_type.to_lowercase() == "soap"`. -/
def isSoapRequest (requestType : String) : Bool :=
  toLowercase requestType == "soap"

/-- The headers the router sets on the internal request it forwards to the
regional processor (`lib.rs` lines 147–152): content type, the
`X-Request-Type` value only when it is non-empty, and the log level. -/
def forwardedHeaders (requestType : String) (debugLevel : Bool) :
    List (String × String) :=
  [("Content-Type", "application/json")] ++
    (if requestType ≠ "" then [("X-Request-Type", requestType)] else []) ++
    [("X-Log-Level", if debugLevel then "debug" else "info")]


/-! ## Helper lemmas -/

set_option maxRecDepth 16384

theorem join_cons_str (s : String) (l : List String) :
    String.join (s :: l) = s ++ String.join l := by
  apply String.ext
  simp [String.join_eq, String.data_append]

theorem foldl_emit_shift (ps : List (String × Json)) (acc : String) :
    ps.foldl (fun a p => a ++ emitParam p) acc =
      acc ++ String.join (ps.map emitParam) := by
  induction ps generalizing acc with
  | nil => simp [String.join_eq, String.append_empty]
  | cons p rest ih =>
      simp only [List.foldl_cons, List.map_cons]
      rw [ih, join_cons_str, String.append_assoc]

theorem soapParamsContent_eq_join (ps : List (String × Json)) :
    soapParamsContent ps = String.join (ps.map emitParam) := by
  have h := foldl_emit_shift ps ""
  rw [String.empty_append] at h
  exact h

theorem digit_is_numeric (c : Char) (h1 : 48 ≤ c.toNat) (h2 : c.toNat ≤ 57) :
    rustIsNumeric c = true := by
  simp only [rustIsNumeric, numericRanges, List.any_cons, List.any_nil,
    Bool.or_eq_true, decide_eq_true_eq]
  exact Or.inl ⟨h1, h2⟩

theorem insert_self_contains (m : List (String × String)) (k v : String) :
    containsKey (insertHeader m k v) k = true := by
  simp [containsKey, insertHeader]

theorem insert_mono_contains (m : List (String × String)) (k v k' : String)
    (h : containsKey m k' = true) :
    containsKey (insertHeader m k v) k' = true := by
  by_cases hk : k = k'
  · subst hk
    exact insert_self_contains m k v
  · have hne : k' ≠ k := fun e => hk e.symm
    simp only [containsKey, insertHeader, List.any_cons, List.any_filter,
      Bool.or_eq_true]
    right
    obtain ⟨kv, hmem, hkv⟩ := List.any_eq_true.mp h
    refine List.any_eq_true.mpr ⟨kv, hmem, ?_⟩
    have hk1 : kv.1 = k' := by simpa using hkv
    simp [hk1, hne]

theorem collect_step_contains (hs : List (String × Option String))
    (m : List (String × String)) (k : String)
    (h : (∃ v, (k, some v) ∈ hs) ∨ containsKey m k = true) :
    containsKey (hs.foldl headerStep m) k = true := by
  induction hs generalizing m with
  | nil =>
      rcases h with ⟨v, hv⟩ | hm
      · exact absurd hv (List.not_mem_nil _)
      · simpa using hm
  | cons kv rest ih =>
      rw [List.foldl_cons]
      rcases h with ⟨v, hv⟩ | hm
      · rcases List.mem_cons.mp hv with heq | hrest
        · apply ih
          right
          rw [← heq]
          simpa [headerStep] using insert_self_contains m k v
        · exact ih _ (Or.inl ⟨v, hrest⟩)
      · apply ih
        right
        cases hkv2 : kv.2 with
        | some v2 => simpa [headerStep, hkv2] using insert_mono_contains m kv.1 v2 k hm
        | none => simpa [headerStep, hkv2] using hm

/-! ## Claim theorems -/

/-- C1: the SOAP envelope builder, applied to action `getDIDCountry`,
namespace `urn:getDIDCountry` and the ordered parameters
`[("1", 44), ("format", "json")]`, produces exactly the single-line
byte string of the legacy nusoap wire format, and the payload contains no
newline character. -/
theorem c1_soap_envelope_byte_exact :
    soapEnvelope "getDIDCountry" "urn:getDIDCountry"
        [("1", Json.num 44), ("format", Json.str "json")] =
      "<?xml version=\"1.0\" encoding=\"ISO-8859-1\"?><SOAP-ENV:Envelope SOAP-ENV:encodingStyle=\"http://schemas.xmlsoap.org/soap/encoding/\" xmlns:SOAP-ENV=\"http://schemas.xmlsoap.org/soap/envelope/\" xmlns:xsd=\"http://www.w3.org/2001/XMLSchema\" xmlns:xsi=\"http://www.w3.org/2001/XMLSchema-instance\" xmlns:SOAP-ENC=\"http://schemas.xmlsoap.org/soap/encoding/\"><SOAP-ENV:Body><ns1766:getDIDCountry xmlns:ns1766=\"urn:getDIDCountry\"><__numeric_1 xsi:type=\"xsd:int\">44</__numeric_1><format xsi:type=\"xsd:string\">json</format></ns1766:getDIDCountry></SOAP-ENV:Body></SOAP-ENV:Envelope>"
    ∧ Char.ofNat 10 ∉
        (soapEnvelope "getDIDCountry" "urn:getDIDCountry"
          [("1", Json.num 44), ("format", Json.str "json")]).toList := by
  constructor
  · decide
  · decide

/-- C2: the shard index is `DefaultHasher(body) % 10`; `DefaultHasher::new`
is SipHash-1-3 with both keys fixed to zero, a closed function of the body
bytes with no per-process or per-call input, so two computations over equal
bodies — in particular computations in different process instances or after
a restart — yield the same index, which moreover lies below the shard count
10, for every region (the index computation does not read the region). -/
theorem c2_shard_index_deterministic (region : ProcessorRegion)
    (b1 b2 : List Nat) (h : b1 = b2) :
    route_do_index b1 = route_do_index b2
    ∧ route_do_index b1 < 10
    ∧ doName region b1 = doName region b2 := by
  subst h
  exact ⟨rfl, Nat.mod_lt _ (by decide), rfl⟩

/-- Witness for C2 at a concrete body. -/
theorem c2_shard_index_deterministic_witness :
    route_do_index [104, 105] = route_do_index [104, 105]
    ∧ route_do_index [104, 105] < 10
    ∧ doName ProcessorRegion.WesternEurope [104, 105] =
        doName ProcessorRegion.WesternEurope [104, 105] :=
  c2_shard_index_deterministic ProcessorRegion.WesternEurope [104, 105] [104, 105] rfl

/-- C5: the parameter section of the SOAP body is exactly the concatenation,
in input order, of one `<KEY xsi:type="TYPE">VALUE</KEY>` element per
parameter — none dropped, none added, never re-sorted — and a key all of
whose characters are ASCII digits is rewritten to `__numeric_<key>`. -/
theorem c5_soap_param_order_preserved (ps : List (String × Json)) :
    soapParamsContent ps =
      String.join (ps.map (fun p =>
        "<" ++ xmlKey p.1 ++ " xsi:type=\"" ++ (soapTypedValue p.2).1 ++ "\">" ++
          (soapTypedValue p.2).2 ++ "</" ++ xmlKey p.1 ++ ">"))
    ∧ ∀ k : String, (∀ c ∈ k.toList, 48 ≤ c.toNat ∧ c.toNat ≤ 57) →
        xmlKey k = "__numeric_" ++ k := by
  constructor
  · exact soapParamsContent_eq_join ps
  · intro k hk
    have hall : k.toList.all rustIsNumeric = true := by
      rw [List.all_eq_true]
      intro c hc
      obtain ⟨h1, h2⟩ := hk c hc
      exact digit_is_numeric c h1 h2
    simp only [xmlKey]
    rw [if_pos hall]

/-- Witness for C5 at a concrete all-digit key. -/
theorem c5_soap_param_order_preserved_witness :
    xmlKey "7" = "__numeric_" ++ "7" :=
  (c5_soap_param_order_preserved []).2 "7" (by decide)

/-- C9: the numeric-key rewrite applies Rust's Unicode numeric predicate to
every character, so it is vacuously true on the empty key (emitted as
`__numeric_` with empty suffix), and a key of non-ASCII Unicode numeric
characters (here ARABIC-INDIC DIGIT FOUR, U+0664) is rewritten as well. -/
theorem c9_numeric_key_unicode :
    xmlKey "" = "__numeric_"
    ∧ (∀ k : String, k.toList.all rustIsNumeric = true →
        xmlKey k = "__numeric_" ++ k)
    ∧ rustIsNumeric (Char.ofNat 0x664) = true
    ∧ 128 ≤ (Char.ofNat 0x664).toNat
    ∧ xmlKey (String.singleton (Char.ofNat 0x664)) =
        "__numeric_" ++ String.singleton (Char.ofNat 0x664) := by
  refine ⟨by decide, ?_, by decide, by decide, by decide⟩
  intro k hk
  simp only [xmlKey]
  rw [if_pos hk]

/-- Witness for C9 at a concrete numeric key. -/
theorem c9_numeric_key_unicode_witness :
    xmlKey "44" = "__numeric_" ++ "44" :=
  (c9_numeric_key_unicode).2.1 "44" (by decide)


/-- C3: validation succeeds exactly when an `Authorization` header is
present, carries the `Bearer ` scheme, and its remainder equals the
configured secret; every failure — absent header, wrong scheme, wrong
token, empty string — yields the one identical 403 response, and success
yields no early response, so the pipeline continues. -/
theorem c3_auth_gate_iff_uniform (authHeader : Option String) (secret : String) :
    (authOk authHeader secret = true ↔
      ∃ a, authHeader = some a
        ∧ ("Bearer ".toList).isPrefixOf a.toList = true
        ∧ String.mk (a.toList.drop 7) = secret)
    ∧ (authOk authHeader secret = false →
        authGateResponse authHeader secret = some forbiddenResponse)
    ∧ (authOk authHeader secret = true →
        authGateResponse authHeader secret = none) := by
  refine ⟨?_, ?_, ?_⟩
  · cases authHeader with
    | none =>
        constructor
        · intro h
          simp [authOk, validate_token] at h
        · rintro ⟨a, ha, -, -⟩
          cases ha
    | some a =>
        by_cases hp : ("Bearer ".toList).isPrefixOf a.toList = true
        · by_cases ht : String.mk (a.toList.drop 7) = secret
          · constructor
            · intro _
              exact ⟨a, rfl, hp, ht⟩
            · intro _
              simp only [authOk, validate_token]
              rw [if_pos hp, if_pos ht]
          · constructor
            · intro h
              simp only [authOk, validate_token] at h
              rw [if_pos hp, if_neg ht] at h
              cases h
            · rintro ⟨a', ha', hp', ht'⟩
              cases ha'
              exact absurd ht' ht
        · constructor
          · intro h
            simp only [authOk, validate_token] at h
            rw [if_neg hp] at h
            cases h
          · rintro ⟨a', ha', hp', ht'⟩
            cases ha'
            exact absurd hp' hp
  · intro hf
    cases hv : validate_token authHeader secret with
    | error e => simp [authGateResponse, hv]
    | ok u => rw [authOk, hv] at hf; cases hf
  · intro ht
    cases hv : validate_token authHeader secret with
    | error e => rw [authOk, hv] at ht; cases ht
    | ok u => simp [authGateResponse, hv]

/-- Witness for C3: a wrong token is rejected with the uniform response,
and the exact token is accepted. -/
theorem c3_auth_gate_iff_uniform_witness :
    authGateResponse (some "Bearer wrong") "s3cret" = some forbiddenResponse
    ∧ authGateResponse (some "Bearer s3cret") "s3cret" = none :=
  ⟨(c3_auth_gate_iff_uniform (some "Bearer wrong") "s3cret").2.1 (by decide),
   (c3_auth_gate_iff_uniform (some "Bearer s3cret") "s3cret").2.2 (by decide)⟩

/-- C4: for a status outside 200–299 the reducer returns
`Error (status, canonical reason phrase or "Unknown Status")`, and the
result is identical for any two parsers, upstream header lists and
upstream bodies — no byte of the upstream body reaches the caller. -/
theorem c4_non2xx_uniform_error (parse1 parse2 : String → Option Json)
    (status : Nat) (hs1 hs2 : List (String × Option String)) (t1 t2 : String)
    (h : ¬ (200 ≤ status ∧ status < 300)) :
    reduceResponse parse1 status hs1 t1 =
      ApiResponse.error status ((canonicalReason status).getD "Unknown Status")
    ∧ reduceResponse parse1 status hs1 t1 = reduceResponse parse2 status hs2 t2 := by
  constructor
  · simp [reduceResponse, h]
  · simp [reduceResponse, h]

/-- Witness for C4 at status 404 with two different parsers, header lists
and bodies. -/
theorem c4_non2xx_uniform_error_witness :
    reduceResponse (fun _ => none) 404 [("X-Leak", some "data")] "secret body" =
      ApiResponse.error 404 ((canonicalReason 404).getD "Unknown Status")
    ∧ reduceResponse (fun _ => none) 404 [("X-Leak", some "data")] "secret body" =
      reduceResponse (fun _ => some Json.null) 404 [] "other body" :=
  c4_non2xx_uniform_error (fun _ => none) (fun _ => some Json.null)
    404 [("X-Leak", some "data")] [] "secret body" "other body" (by decide)

/-- C6: region classification is total — each of the eight codes, compared
after lowercasing, maps to its region, any other lowercased value (and the
absent header) falls through to Western North America — and exactly the two
European regions carry the EU flag. -/
theorem c6_region_classification_total :
    (∀ s : String, toLowercase s = "wnam" →
        regionFromHeader s = ProcessorRegion.WesternNorthAmerica)
    ∧ (∀ s : String, toLowercase s = "enam" →
        regionFromHeader s = ProcessorRegion.EasternNorthAmerica)
    ∧ (∀ s : String, toLowercase s = "weur" →
        regionFromHeader s = ProcessorRegion.WesternEurope)
    ∧ (∀ s : String, toLowercase s = "eeur" →
        regionFromHeader s = ProcessorRegion.EasternEurope)
    ∧ (∀ s : String, toLowercase s = "apac" →
        regionFromHeader s = ProcessorRegion.AsiaPacific)
    ∧ (∀ s : String, toLowercase s = "oc" →
        regionFromHeader s = ProcessorRegion.Oceania)
    ∧ (∀ s : String, toLowercase s = "af" →
        regionFromHeader s = ProcessorRegion.Africa)
    ∧ (∀ s : String, toLowercase s = "me" →
        regionFromHeader s = ProcessorRegion.MiddleEast)
    ∧ (∀ s : String,
        toLowercase s ∉
          (["wnam", "enam", "weur", "eeur", "apac", "oc", "af", "me"] :
            List String) →
        regionFromHeader s = ProcessorRegion.WesternNorthAmerica)
    ∧ regionOfHeader none = ProcessorRegion.WesternNorthAmerica
    ∧ (∀ r : ProcessorRegion,
        (regionInfo r).isEU = true ↔
          (r = ProcessorRegion.WesternEurope ∨ r = ProcessorRegion.EasternEurope)) := by
  refine ⟨?_, ?_, ?_, ?_, ?_, ?_, ?_, ?_, ?_, by decide, ?_⟩
  · intro s h; unfold regionFromHeader; rw [h]; decide
  · intro s h; unfold regionFromHeader; rw [h]; decide
  · intro s h; unfold regionFromHeader; rw [h]; decide
  · intro s h; unfold regionFromHeader; rw [h]; decide
  · intro s h; unfold regionFromHeader; rw [h]; decide
  · intro s h; unfold regionFromHeader; rw [h]; decide
  · intro s h; unfold regionFromHeader; rw [h]; decide
  · intro s h; unfold regionFromHeader; rw [h]; decide
  · intro s h
    simp only [List.mem_cons, List.not_mem_nil, or_false, not_or] at h
    obtain ⟨h1, h2, h3, h4, h5, h6, h7, h8⟩ := h
    simp [regionFromHeader, h1, h2, h3, h4, h5, h6, h7, h8]
  · intro r
    cases r <;> decide

/-- Witness for C6: the uppercase header `WEUR` selects Western Europe. -/
theorem c6_region_classification_total_witness :
    regionFromHeader "WEUR" = ProcessorRegion.WesternEurope :=
  (c6_region_classification_total).2.2.1 "WEUR" (by decide)

/-- C7: a missing method field defaults to POST, and parameter placement is
decided by the method alone — GET, HEAD and DELETE put the params into the
query string, every other method sends them as the JSON body. -/
theorem c7_method_default_and_placement :
    methodOfSpec none = HttpMethod.post
    ∧ (∀ (m : HttpMethod) (url : String) (ps : List (String × String)),
        (m = HttpMethod.get ∨ m = HttpMethod.head ∨ m = HttpMethod.delete) →
        buildOutbound m url ps = ⟨m, url, some ps, none⟩)
    ∧ (∀ (m : HttpMethod) (url : String) (ps : List (String × String)),
        ¬ (m = HttpMethod.get ∨ m = HttpMethod.head ∨ m = HttpMethod.delete) →
        buildOutbound m url ps = ⟨m, url, none, some ps⟩) := by
  refine ⟨rfl, ?_, ?_⟩
  · intro m url ps h
    simp [buildOutbound, h]
  · intro m url ps h
    simp [buildOutbound, h]

/-- Witness for C7: GET places the params in the query, POST in the body. -/
theorem c7_method_default_and_placement_witness :
    buildOutbound HttpMethod.get "http://e" [("q", "x")] =
      ⟨HttpMethod.get, "http://e", some [("q", "x")], none⟩
    ∧ buildOutbound HttpMethod.post "http://e" [("q", "x")] =
      ⟨HttpMethod.post, "http://e", none, some [("q", "x")]⟩ :=
  ⟨(c7_method_default_and_placement).2.1 HttpMethod.get "http://e" [("q", "x")]
      (Or.inl rfl),
   (c7_method_default_and_placement).2.2 HttpMethod.post "http://e" [("q", "x")]
      (by decide)⟩

/-- C8 counterexample: the claim says every upstream response header is
forwarded on success, but a header whose value does not convert with
`HeaderValue::to_str` (a non-visible-ASCII value, modelled as `none`) is
silently dropped by the handlers' `if let Ok(v)` loop: a 200 response
carrying only the header `X-Upstream-Tag` is reduced to a `Success` whose
header map is empty. -/
theorem c8_success_forwarding_counterexample :
    reduceResponse (fun _ => none) 200 [("X-Upstream-Tag", none)] "hello" =
      ApiResponse.success 200 [] (Json.str "hello")
    ∧ containsKey (collectHeaders [("X-Upstream-Tag", none)]) "X-Upstream-Tag" =
      false := by
  exact ⟨rfl, by decide⟩

/-- C8 amended: for a 2xx status the reducer returns `Success` with the
status, the collected headers and the body parsed as JSON when the parser
succeeds (else the raw text as a JSON string); every upstream header whose
value converts to a string is present in the forwarded map under its
unchanged name — headers whose value does not convert are dropped. -/
theorem c8_success_forwarding_amended (parse : String → Option Json)
    (status : Nat) (hs : List (String × Option String)) (text : String)
    (h : 200 ≤ status ∧ status < 300) :
    reduceResponse parse status hs text =
      ApiResponse.success status (collectHeaders hs)
        (match parse text with
         | some v => v
         | none => Json.str text)
    ∧ ∀ k v, (k, some v) ∈ hs → containsKey (collectHeaders hs) k = true := by
  constructor
  · simp [reduceResponse, h]
  · intro k v hmem
    exact collect_step_contains hs [] k (Or.inl ⟨v, hmem⟩)

/-- Witness for C8 amended: a 201 response with one convertible header and
a JSON body. -/
theorem c8_success_forwarding_amended_witness :
    reduceResponse (fun _ => some (Json.obj [("a", Json.num 1)])) 201
        [("Content-Length", some "7")] "body" =
      ApiResponse.success 201 (collectHeaders [("Content-Length", some "7")])
        (Json.obj [("a", Json.num 1)])
    ∧ containsKey (collectHeaders [("Content-Length", some "7")])
        "Content-Length" = true :=
  ⟨(c8_success_forwarding_amended (fun _ => some (Json.obj [("a", Json.num 1)]))
      201 [("Content-Length", some "7")] "body" (by decide)).1,
   (c8_success_forwarding_amended (fun _ => some (Json.obj [("a", Json.num 1)]))
      201 [("Content-Length", some "7")] "body" (by decide)).2
      "Content-Length" "7" (by decide)⟩

/-- C10: a request takes the SOAP path exactly when the lowercased
`X-Request-Type` value equals `"soap"` (so `SOAP` and `Soap` qualify, an
absent header — the empty string — does not), and the router forwards the
`X-Request-Type` header to the regional processor exactly when the value is
non-empty. -/
theorem c10_soap_dispatch_iff :
    (∀ s : String, isSoapRequest s = true ↔ toLowercase s = "soap")
    ∧ isSoapRequest "SOAP" = true
    ∧ isSoapRequest "Soap" = true
    ∧ isSoapRequest (requestTypeOfHeader none) = false
    ∧ (∀ (rt : String) (lvl : Bool), rt ≠ "" →
        ("X-Request-Type", rt) ∈ forwardedHeaders rt lvl)
    ∧ (∀ (lvl : Bool) (v : String),
        ("X-Request-Type", v) ∉ forwardedHeaders "" lvl) := by
  refine ⟨?_, by decide, by decide, by decide, ?_, ?_⟩
  · intro s
    simp [isSoapRequest]
  · intro rt lvl h
    simp [forwardedHeaders, h]
  · intro lvl v
    have h1 : ("X-Request-Type" : String) ≠ "Content-Type" := by decide
    have h2 : ("X-Request-Type" : String) ≠ "X-Log-Level" := by decide
    simp [forwardedHeaders, Prod.ext_iff, h1, h2]

/-- Witness for C10: a non-empty request type is forwarded. -/
theorem c10_soap_dispatch_iff_witness :
    ("X-Request-Type", "soap") ∈ forwardedHeaders "soap" false :=
  (c10_soap_dispatch_iff).2.2.2.2.1 "soap" false (by decide)

end ApiProxy
